import Mathlib

/-!
Shallow embedding of the fetch-orchestration and caching backend of the
Finance-map repository (`src/backend/server.js`, the two-tier-cache variant:
the part of the file introducing `RequestQueue`, `loadPersistentCache`,
`refreshHeatmapData` and the two-tier `/api/heatmap` handler).

Numbers that are JavaScript floats in the source are modelled as rationals
(`ℚ`); timestamps (milliseconds since epoch) are modelled as `Int`.
-/

set_option maxRecDepth 40000

namespace FinanceMap

/-! ## Configuration constants (from `RATE_LIMIT` and the cache constants) -/

/-- `RATE_LIMIT.maxRetries = 5`. -/
def maxRetries : Nat := 5

/-- `RATE_LIMIT.initialBackoff = 2000` (milliseconds). -/
def initialBackoff : Nat := 2000

/-- `RATE_LIMIT.maxBackoff = 32000` (milliseconds). -/
def maxBackoff : Nat := 32000

/-- `CACHE_MAX_AGE = 15 * 60 * 1000` milliseconds; also the `NodeCache`
`stdTTL` of 900 seconds expressed in milliseconds. -/
def CACHE_MAX_AGE : Int := 900000

/-! ## Upstream data shapes (Finnhub quote and profile responses) -/

/-- The fields of a Finnhub quote response used by the server:
current price `c`, change `d`, percent change `dp`, volume `v`,
high `h`, low `l`, open `o`, previous close `pc`. -/
structure Quote where
  c : ℚ
  d : ℚ
  dp : ℚ
  v : ℚ
  h : ℚ
  l : ℚ
  o : ℚ
  pc : ℚ
deriving DecidableEq

/-- The fields of a Finnhub profile response used by the server. -/
structure Profile where
  name : String
  marketCapitalization : ℚ
deriving DecidableEq

/-- The flat per-symbol record pushed onto `stockData` in
`refreshHeatmapData`.  The source field `open` is spelled `openPrice`
here because `open` is a Lean keyword. -/
structure StockRecord where
  symbol : String
  name : String
  price : ℚ
  change : ℚ
  changePercent : ℚ
  marketCap : ℚ
  sector : String
  volume : ℚ
  high : ℚ
  low : ℚ
  openPrice : ℚ
  previousClose : ℚ
deriving DecidableEq

/-! ## The fixed sector table and ticker enumeration -/

/-- `STOCKS_BY_SECTOR`, in the source's key-insertion order (which is the
iteration order of `Object.entries` for string keys). -/
def STOCKS_BY_SECTOR : List (String × List String) := [
  ("Technology", ["AAPL", "MSFT", "NVDA", "GOOGL", "META", "AVGO", "ADBE", "CRM", "CSCO", "ACN", "AMD", "INTC", "ORCL", "QCOM", "TXN"]),
  ("Healthcare", ["LLY", "UNH", "JNJ", "ABBV", "MRK", "TMO", "ABT", "DHR", "PFE", "BMY", "AMGN", "GILD", "CVS", "MDT", "CI"]),
  ("Financial", ["BRK.B", "JPM", "V", "MA", "BAC", "WFC", "GS", "MS", "AXP", "SPGI", "BLK", "C", "SCHW", "CB", "MMC"]),
  ("Consumer Cyclical", ["AMZN", "TSLA", "HD", "MCD", "NKE", "SBUX", "LOW", "TJX", "BKNG", "ABNB", "CMG", "MAR", "F", "GM", "ORLY"]),
  ("Communication", ["GOOGL", "META", "NFLX", "DIS", "CMCSA", "VZ", "T", "TMUS", "CHTR", "EA", "TTWO", "WBD", "PARA", "LYV", "MTCH"]),
  ("Consumer Defensive", ["WMT", "PG", "KO", "PEP", "COST", "PM", "MO", "CL", "MDLZ", "KMB", "GIS", "KHC", "STZ", "HSY", "SYY"]),
  ("Industrials", ["UPS", "HON", "UNP", "RTX", "BA", "CAT", "DE", "LMT", "GE", "MMM", "GD", "NSC", "ETN", "EMR", "ITW"]),
  ("Energy", ["XOM", "CVX", "COP", "SLB", "EOG", "MPC", "PSX", "PXD", "VLO", "WMB", "OXY", "HES", "KMI", "HAL", "DVN"]),
  ("Basic Materials", ["LIN", "APD", "SHW", "ECL", "DD", "NEM", "FCX", "DOW", "NUE", "PPG", "ALB", "CTVA", "VMC", "MLM", "FMC"]),
  ("Real Estate", ["PLD", "AMT", "EQIX", "CCI", "PSA", "SPG", "O", "WELL", "DLR", "SBAC", "AVB", "EQR", "VICI", "VTR", "ARE"]),
  ("Utilities", ["NEE", "DUK", "SO", "D", "AEP", "SRE", "EXC", "XEL", "ED", "PEG", "ES", "WEC", "DTE", "ETR", "AWK"])]

/-- `getAllTickers`: a JavaScript `Set` is filled with every symbol of every
sector list in order and converted back to an array; a `Set` keeps the first
occurrence of each element in insertion order, which the fold below models. -/
def getAllTickers : List String :=
  ((STOCKS_BY_SECTOR.map Prod.snd).flatten).foldl
    (fun acc t => if t ∈ acc then acc else acc ++ [t]) []

/-- The sector-lookup loop inside `refreshHeatmapData`: `sector` starts as
`"Other"` and the loop breaks at the first entry of `STOCKS_BY_SECTOR`
whose list `includes` the ticker. -/
def findSector (ticker : String) : String :=
  match STOCKS_BY_SECTOR.find? (fun e => e.2.contains ticker) with
  | some e => e.1
  | none => "Other"

/-! ## Per-ticker processing

`fetch` abstracts the pair of upstream results
(`fetchQuote ticker`, `fetchProfile ticker`); either call may resolve to
`null` (modelled `none`). -/

/-- The body of the per-ticker loop in `refreshHeatmapData`: a record is
pushed only when `quote && quote.c > 0`; `profile?.name || ticker` falls
back to the ticker on a missing profile or empty name, and
`profile?.marketCapitalization || 0` falls back to `0`. -/
def processTicker (fetch : String → Option Quote × Option Profile)
    (ticker : String) : Option StockRecord :=
  match (fetch ticker).1 with
  | none => none
  | some q =>
    if 0 < q.c then
      some {
        symbol := ticker
        name := match (fetch ticker).2 with
          | some p => if p.name = "" then ticker else p.name
          | none => ticker
        price := q.c
        change := q.d
        changePercent := q.dp
        marketCap := match (fetch ticker).2 with
          | some p => p.marketCapitalization
          | none => 0
        sector := findSector ticker
        volume := q.v
        high := q.h
        low := q.l
        openPrice := q.o
        previousClose := q.pc }
    else none

/-! ## Aggregation into sector buckets -/

/-- One entry of the `sectorData` object.  `averageChange` is `none` until
(and unless) the finalization pass sets it: the source only assigns
`sector.averageChange` when `sector.totalMarketCap > 0`. -/
structure SectorBucket where
  name : String
  stocks : List StockRecord
  totalMarketCap : ℚ
  weightedChange : ℚ
  averageChange : Option ℚ
deriving DecidableEq

/-- One step of the `stockData.forEach` grouping loop.  `sectorData` is a
JavaScript object keyed by sector name, so there is exactly one bucket per
name: a new key is appended at the end of the key order, an existing key's
bucket is updated in place. -/
def addStock : List SectorBucket → StockRecord → List SectorBucket
  | [], s => [{ name := s.sector, stocks := [s], totalMarketCap := s.marketCap,
                weightedChange := s.changePercent * s.marketCap, averageChange := none }]
  | b :: bs, s =>
    if b.name = s.sector then
      { b with stocks := b.stocks ++ [s],
               totalMarketCap := b.totalMarketCap + s.marketCap,
               weightedChange := b.weightedChange + s.changePercent * s.marketCap } :: bs
    else
      b :: addStock bs s

/-- The finalization pass: `if (sector.totalMarketCap > 0)
sector.averageChange = sector.weightedChange / sector.totalMarketCap`. -/
def finalizeBucket (b : SectorBucket) : SectorBucket :=
  if 0 < b.totalMarketCap then
    { b with averageChange := some (b.weightedChange / b.totalMarketCap) }
  else b

/-- Grouping plus finalization, as applied to `stockData`. -/
def aggregate (records : List StockRecord) : List SectorBucket :=
  (records.foldl addStock []).map finalizeBucket

/-- The API response body / cache unit. -/
structure HeatmapSnapshot where
  sectors : List SectorBucket
  lastUpdated : Int
deriving DecidableEq

/-- The data produced by one completed pass of `refreshHeatmapData`:
every ticker of `getAllTickers` is processed in order, invalid tickers
are skipped, the survivors are grouped and finalized, and `lastUpdated`
is the completion time. -/
def refreshHeatmapData (fetch : String → Option Quote × Option Profile)
    (now : Int) : HeatmapSnapshot :=
  { sectors := aggregate (getAllTickers.filterMap (processTicker fetch))
    lastUpdated := now }

/-- All records of a snapshot, across every sector bucket. -/
def allStocks (snap : HeatmapSnapshot) : List StockRecord :=
  snap.sectors.flatMap (fun b => b.stocks)

/-! ## The request queue and the retry layer

`fetchWithRetry` submits its work to the single `RequestQueue`.  The queue's
`process` loop dequeues one task, runs `await fn()` and only moves on once
that promise settles.  On a 429 with retries left the task sleeps for the
backoff time, then calls `fetchWithRetry` again — which pushes a *new* task
onto the same queue and returns its promise, so the running task's promise
settles only when the newly queued task settles.

The event-loop state below captures exactly the observable coordination:
`pending` is the queue contents (each task identified by its `retryCount`),
`awaitChain` is the chain of tasks the processor's current `await fn()` is
(transitively) blocked on, `sleeps` records the backoff sleeps performed, and
`result` is the settlement of the original `fetchWithRetry` promise.  The
inter-request pacing sleep (`delayMs`/`lastRequestTime`) only shifts wall
time and settles no promise, so it is not tracked.  One `qstep` is one
event-loop turn in which the processor can make progress: it can only
dequeue when it is not parked inside `await fn()` (empty `awaitChain`). -/

/-- Outcome of one upstream HTTP attempt, as `fetchWithRetry` classifies it:
a successful response, a 429 rejection, or any other failure (timeout,
network error, non-429 status). -/
inductive UpstreamResult (α : Type)
  | success (data : α)
  | rateLimited
  | otherError
deriving DecidableEq

/-- `Math.min(RATE_LIMIT.initialBackoff * Math.pow(2, retryCount),
RATE_LIMIT.maxBackoff)`. -/
def backoffTime (retryCount : Nat) : Nat :=
  min (initialBackoff * 2 ^ retryCount) maxBackoff

/-- Event-loop state of the queue+retry stack for one originating
`fetchWithRetry` call. -/
structure QueueState (α : Type) where
  pending : List Nat
  awaitChain : List Nat
  sleeps : List Nat
  result : Option (Option α)
deriving DecidableEq

/-- One event-loop turn.  `upstream r` is the outcome of the HTTP attempt
performed by the task whose `retryCount` is `r` (attempt number `r + 1`).
A parked processor (`awaitChain` nonempty) cannot dequeue: the source's
`while` loop is suspended at `await fn()` and `processing` stays `true`,
so a task pushed by `add` is only ever run by that same suspended loop. -/
def qstep (upstream : Nat → UpstreamResult α) : QueueState α → QueueState α
  | ⟨pending, chain, sleeps, some v⟩ => ⟨pending, chain, sleeps, some v⟩
  | ⟨pending, a :: chain, sleeps, none⟩ => ⟨pending, a :: chain, sleeps, none⟩
  | ⟨[], [], sleeps, none⟩ => ⟨[], [], sleeps, none⟩
  | ⟨r :: rest, [], sleeps, none⟩ =>
    match upstream r with
    | .success d => ⟨rest, [], sleeps, some (some d)⟩
    | .otherError => ⟨rest, [], sleeps, some none⟩
    | .rateLimited =>
      if r < maxRetries then
        ⟨rest ++ [r + 1], [r], sleeps ++ [backoffTime r], none⟩
      else
        ⟨rest, [], sleeps, some none⟩

/-- The state right after `fetchWithRetry(url, params)` ran
`requestQueue.add`: the retry-count-0 task is queued, nothing has run. -/
def initQueueState (α : Type) : QueueState α := ⟨[0], [], [], none⟩

/-- Unfolding of `qstep` on an idle processor with a queued task. -/
theorem qstep_dispatch {α : Type} (upstream : Nat → UpstreamResult α)
    (r : Nat) (rest : List Nat) (sleeps : List Nat) :
    qstep upstream ⟨r :: rest, [], sleeps, none⟩
      = match upstream r with
        | .success d => ⟨rest, [], sleeps, some (some d)⟩
        | .otherError => ⟨rest, [], sleeps, some none⟩
        | .rateLimited =>
          if r < maxRetries then
            ⟨rest ++ [r + 1], [r], sleeps ++ [backoffTime r], none⟩
          else ⟨rest, [], sleeps, some none⟩ := rfl

/-! ## The single-flight refresh guard -/

/-- The process-wide `isRefreshing` flag together with a counter of how many
refresh passes have been started. -/
structure FlightState where
  isRefreshing : Bool
  passesStarted : Nat
deriving DecidableEq

/-- Entry of `refreshHeatmapData`: `if (isRefreshing) return null;
isRefreshing = true` — there is no `await` between the check and the set,
so under the cooperative scheduler the two are one atomic step.  The
returned `Bool` is whether this invocation started a refresh pass (a
`false` is the immediate `null` no-op return performing no upstream call). -/
def refreshInvoke (s : FlightState) : FlightState × Bool :=
  if s.isRefreshing then (s, false)
  else ({ isRefreshing := true, passesStarted := s.passesStarted + 1 }, true)

/-! ## The two-tier cache and the `/api/heatmap` handler -/

/-- The persisted `cache.json` content written by `savePersistentCache`:
a wrapper `timestamp` (serialization time) around the snapshot. -/
structure DiskEntry where
  timestamp : Int
  data : HeatmapSnapshot
deriving DecidableEq

/-- `loadPersistentCache`: returns the stored snapshot only when the wrapper
timestamp is younger than `CACHE_MAX_AGE * 2`; an older file, a missing
file and a malformed file all yield `null`. -/
def loadPersistentCache (now : Int) (disk : Option DiskEntry) :
    Option HeatmapSnapshot :=
  match disk with
  | none => none
  | some e => if now - e.timestamp < CACHE_MAX_AGE * 2 then some e.data else none

/-- An entry of the in-memory `NodeCache`: the stored value and its expiry
instant.  `stdTTL: 900` makes every `set` expire 900 s after the set. -/
structure MemEntry where
  value : HeatmapSnapshot
  expiresAt : Int
deriving DecidableEq

/-- `cache.get('heatmap')`: the value while `now` is before the expiry,
`undefined` (here `none`) afterwards. -/
def cacheGet (mem : Option MemEntry) (now : Int) : Option HeatmapSnapshot :=
  match mem with
  | none => none
  | some e => if now < e.expiresAt then some e.value else none

/-- `cache.set('heatmap', v)` at instant `now`: a fresh full TTL from the
set time. -/
def cacheSet (v : HeatmapSnapshot) (now : Int) : Option MemEntry :=
  some { value := v, expiresAt := now + CACHE_MAX_AGE }

/-- Status outcome of a `/api/heatmap` request. -/
inductive HeatmapResponse
  | ok (snapshot : HeatmapSnapshot)
  | serviceUnavailable
deriving DecidableEq

/-- Which refresh, if any, the handler triggered. -/
inductive RefreshKind
  | noRefresh
  | background
  | blocking
deriving DecidableEq

/-- Result of one `/api/heatmap` request: the response, the in-memory cache
afterwards, and the kind of refresh triggered. -/
structure HandlerResult where
  response : HeatmapResponse
  newMem : Option MemEntry
  refresh : RefreshKind
deriving DecidableEq

/-- The `/api/heatmap` handler of the two-tier variant.  `refreshResult` is
what `await refreshHeatmapData()` would yield if the blocking path invoked
it (`none` — i.e. `null` — when the refresh fails or is skipped by the
single-flight guard); on the blocking-success path `refreshHeatmapData`
itself wrote the result into both tiers before returning it. -/
def handleHeatmap (mem : Option MemEntry) (disk : Option DiskEntry) (now : Int)
    (refreshResult : Option HeatmapSnapshot) : HandlerResult :=
  match cacheGet mem now with
  | some cachedData => ⟨.ok cachedData, mem, .noRefresh⟩
  | none =>
    match loadPersistentCache now disk with
    | some cachedData =>
      if now - cachedData.lastUpdated < CACHE_MAX_AGE then
        ⟨.ok cachedData, cacheSet cachedData now, .noRefresh⟩
      else if now - cachedData.lastUpdated < CACHE_MAX_AGE * 2 then
        ⟨.ok cachedData, cacheSet cachedData now, .background⟩
      else
        match refreshResult with
        | some freshData => ⟨.ok freshData, cacheSet freshData now, .blocking⟩
        | none => ⟨.ok cachedData, mem, .blocking⟩
    | none =>
      match refreshResult with
      | some freshData => ⟨.ok freshData, cacheSet freshData now, .blocking⟩
      | none => ⟨.serviceUnavailable, mem, .blocking⟩

/-! ## Invariant predicates and concrete inputs used by witnesses -/

/-- The running sums maintained by the grouping loop: a bucket's
`totalMarketCap` and `weightedChange` are the sums over its members, and
`averageChange` has not been assigned yet. -/
def BucketSums (b : SectorBucket) : Prop :=
  b.totalMarketCap = (b.stocks.map (fun s => s.marketCap)).sum
  ∧ b.weightedChange = (b.stocks.map (fun s => s.changePercent * s.marketCap)).sum
  ∧ b.averageChange = none

/-- A quote with current price `c` and percent change `dp`, all other
fields zero. -/
def mkQuote (c dp : ℚ) : Quote := ⟨c, 0, dp, 0, 0, 0, 0, 0⟩

/-- Upstream for the C1 counterexample: AAPL has a valid quote but no
profile, so its `marketCap` falls back to `0` and the Technology bucket's
total market cap is `0`. -/
def fetchC1 : String → Option Quote × Option Profile :=
  fun t => if t = "AAPL" then (some (mkQuote 1 5), none) else (none, none)

/-- Upstream for the C1 witness: one valid symbol with market cap 1000 and
percent change 2. -/
def fetchC1W : String → Option Quote × Option Profile :=
  fun t => if t = "AAPL" then (some (mkQuote 1 2), some ⟨"Apple", 1000⟩) else (none, none)

/-- The record `fetchC1W` produces for AAPL. -/
def recC1W : StockRecord :=
  { symbol := "AAPL", name := "Apple", price := 1, change := 0, changePercent := 2,
    marketCap := 1000, sector := "Technology", volume := 0, high := 0, low := 0,
    openPrice := 0, previousClose := 0 }

/-- The finalized Technology bucket of the C1 witness run. -/
def bC1W : SectorBucket :=
  { name := "Technology", stocks := [recC1W], totalMarketCap := 1000,
    weightedChange := 2000, averageChange := some 2 }

/-- Upstream for the C2 witness: rate-limited on the first attempt, would
succeed on the second. -/
def u2 : Nat → UpstreamResult ℚ :=
  fun i => if i = 0 then .rateLimited else .success 1

/-- Upstream for the C5 witness: AAPL valid; MSFT has a quote whose current
price is not strictly positive, so MSFT is an invalid symbol. -/
def fetchC5 : String → Option Quote × Option Profile :=
  fun t =>
    if t = "AAPL" then (some (mkQuote 3 1), some ⟨"Apple", 10⟩)
    else if t = "MSFT" then (some (mkQuote (-1) 1), some ⟨"Microsoft", 10⟩)
    else (none, none)

/-- Upstream for the C7 witness: every attempt fails with a non-429 error. -/
def u7 : Nat → UpstreamResult ℚ := fun _ => .otherError

/-- Per-symbol fetch for the C7 witness: MSFT's quote call failed (resolved
to `null`), AAPL is valid. -/
def fetchC7 : String → Option Quote × Option Profile :=
  fun t => if t = "AAPL" then (some (mkQuote 2 3), some ⟨"Apple", 7⟩) else (none, none)

/-- The record `fetchC7` produces for AAPL. -/
def recC7 : StockRecord :=
  { symbol := "AAPL", name := "Apple", price := 2, change := 0, changePercent := 3,
    marketCap := 7, sector := "Technology", volume := 0, high := 0, low := 0,
    openPrice := 0, previousClose := 0 }

/-- An empty snapshot produced at instant 0, used by cache witnesses. -/
def snap0 : HeatmapSnapshot := ⟨[], 0⟩

/-! ## Helper lemmas -/

/-- A record emitted for a ticker carries that ticker as its symbol and the
quote's strictly positive current price as its price. -/
theorem processTicker_symbol_price {fetch : String → Option Quote × Option Profile}
    {t : String} {r : StockRecord} (h : processTicker fetch t = some r) :
    r.symbol = t ∧ ∃ q, (fetch t).1 = some q ∧ 0 < q.c ∧ r.price = q.c := by
  unfold processTicker at h
  cases hq : (fetch t).1 with
  | none => simp [hq] at h
  | some q =>
    simp only [hq] at h
    by_cases hc : 0 < q.c
    · rw [if_pos hc] at h
      injection h with h'
      subst h'
      exact ⟨rfl, q, rfl, hc, rfl⟩
    · rw [if_neg hc] at h; exact absurd h (by simp)

/-- An invalid ticker (no quote, or a quote with non-positive price) emits
no record. -/
theorem processTicker_invalid {fetch : String → Option Quote × Option Profile}
    {t : String}
    (h : (fetch t).1 = none ∨ ∃ q, (fetch t).1 = some q ∧ q.c ≤ 0) :
    processTicker fetch t = none := by
  unfold processTicker
  cases h with
  | inl hnone => rw [hnone]
  | inr hq =>
    obtain ⟨q, hq, hc⟩ := hq
    simp only [hq]
    rw [if_neg (not_lt.mpr hc)]

/-- Adding one record to the bucket list moves that record into exactly one
bucket: the flattened member lists gain exactly that record. -/
theorem flatMap_addStock (bs : List SectorBucket) (s : StockRecord) :
    ((addStock bs s).flatMap (fun b => b.stocks)).Perm
      ((bs.flatMap (fun b => b.stocks)) ++ [s]) := by
  induction bs with
  | nil => simp [addStock]
  | cons b bs ih =>
    by_cases hname : b.name = s.sector
    · simp only [addStock, if_pos hname, List.flatMap_cons]
      rw [List.append_assoc, List.append_assoc]
      exact List.perm_append_comm.append_left b.stocks
    · simp only [addStock, if_neg hname, List.flatMap_cons]
      rw [List.append_assoc]
      exact ih.append_left b.stocks

/-- The grouping fold preserves, as a multiset, exactly the records it was
given. -/
theorem flatMap_foldl_addStock (recs : List StockRecord) :
    ∀ bs : List SectorBucket,
      ((recs.foldl addStock bs).flatMap (fun b => b.stocks)).Perm
        ((bs.flatMap (fun b => b.stocks)) ++ recs) := by
  induction recs with
  | nil => intro bs; simp
  | cons r rest ih =>
    intro bs
    rw [List.foldl_cons]
    refine (ih (addStock bs r)).trans ?_
    refine ((flatMap_addStock bs r).append_right rest).trans ?_
    rw [List.append_assoc, List.singleton_append]

/-- Finalization does not touch the member lists. -/
theorem finalizeBucket_stocks (b : SectorBucket) :
    (finalizeBucket b).stocks = b.stocks := by
  unfold finalizeBucket
  split <;> rfl

/-- The records of a produced snapshot are, as a multiset, exactly the
records emitted by the per-ticker loop. -/
theorem allStocks_refresh_perm (fetch : String → Option Quote × Option Profile)
    (now : Int) :
    (allStocks (refreshHeatmapData fetch now)).Perm
      (getAllTickers.filterMap (processTicker fetch)) := by
  have hmap : ∀ l : List SectorBucket,
      ((l.map finalizeBucket).flatMap fun b => b.stocks)
        = l.flatMap fun b => b.stocks := by
    intro l
    induction l with
    | nil => rfl
    | cons b bs ih => simp only [List.map_cons, List.flatMap_cons, ih, finalizeBucket_stocks]
  simp only [allStocks, refreshHeatmapData, aggregate]
  rw [hmap]
  simpa using flatMap_foldl_addStock (getAllTickers.filterMap (processTicker fetch)) []

/-- Every record in a produced snapshot was emitted by `processTicker` for
some ticker of the configured list, and conversely. -/
theorem mem_allStocks_iff (fetch : String → Option Quote × Option Profile)
    (now : Int) (r : StockRecord) :
    r ∈ allStocks (refreshHeatmapData fetch now)
      ↔ ∃ t ∈ getAllTickers, processTicker fetch t = some r := by
  rw [(allStocks_refresh_perm fetch now).mem_iff, List.mem_filterMap]

/-- One grouping step preserves the running-sums invariant. -/
theorem addStock_bucketSums : ∀ (bs : List SectorBucket) (s : StockRecord),
    (∀ b ∈ bs, BucketSums b) → ∀ b ∈ addStock bs s, BucketSums b := by
  intro bs
  induction bs with
  | nil =>
    intro s _ b hb
    simp only [addStock, List.mem_singleton] at hb
    subst hb
    exact ⟨by simp, by simp, rfl⟩
  | cons b0 bs ih =>
    intro s hall b hb
    by_cases hname : b0.name = s.sector
    · simp only [addStock, if_pos hname, List.mem_cons] at hb
      obtain ⟨h1, h2, h3⟩ := hall b0 (List.mem_cons_self b0 bs)
      cases hb with
      | inl hb =>
        subst hb
        refine ⟨?_, ?_, h3⟩
        · simp [h1, List.sum_append]
        · simp [h2, List.sum_append]
      | inr hb => exact hall b (List.mem_cons_of_mem b0 hb)
    · simp only [addStock, if_neg hname, List.mem_cons] at hb
      cases hb with
      | inl hb => subst hb; exact hall b (List.mem_cons_self b bs)
      | inr hb => exact ih s (fun b' hb' => hall b' (List.mem_cons_of_mem b0 hb')) b hb

/-- The grouping fold preserves the running-sums invariant. -/
theorem foldl_bucketSums (recs : List StockRecord) :
    ∀ bs : List SectorBucket, (∀ b ∈ bs, BucketSums b) →
      ∀ b ∈ recs.foldl addStock bs, BucketSums b := by
  induction recs with
  | nil => intro bs hall; exact hall
  | cons r rest ih =>
    intro bs hall
    rw [List.foldl_cons]
    exact ih (addStock bs r) (addStock_bucketSums bs r hall)

/-- The symbols of the emitted records form a sublist of the processed
ticker list. -/
theorem symbols_sublist (fetch : String → Option Quote × Option Profile) :
    ∀ l : List String,
      ((l.filterMap (processTicker fetch)).map (fun r => r.symbol)).Sublist l := by
  intro l
  induction l with
  | nil => simp
  | cons t rest ih =>
    rw [List.filterMap_cons]
    cases h : processTicker fetch t with
    | none => exact ih.cons t
    | some r =>
      simp only [List.map_cons]
      rw [(processTicker_symbol_price h).1]
      exact ih.cons₂ t

/-- Folding the set-insertion step over any list keeps the accumulator
duplicate-free. -/
theorem insertUnique_foldl_nodup : ∀ (l acc : List String), acc.Nodup →
    (l.foldl (fun acc t => if t ∈ acc then acc else acc ++ [t]) acc).Nodup := by
  intro l
  induction l with
  | nil => intro acc h; exact h
  | cons t rest ih =>
    intro acc h
    rw [List.foldl_cons]
    by_cases ht : t ∈ acc
    · rw [if_pos ht]; exact ih acc h
    · rw [if_neg ht]
      refine ih _ ?_
      simp [List.nodup_append, h, ht]

/-- The deduplicated ticker list has no duplicates. -/
theorem getAllTickers_nodup : getAllTickers.Nodup :=
  insertUnique_foldl_nodup _ [] List.nodup_nil

/-- `find?` returns the element at the first index satisfying the
predicate. -/
theorem find?_eq_get_of_first {α : Type} (p : α → Bool) :
    ∀ (l : List α) (i : Nat) (hi : i < l.length),
      p (l.get ⟨i, hi⟩) = true →
      (∀ (j : Nat) (hj : j < l.length), j < i → p (l.get ⟨j, hj⟩) = false) →
      l.find? p = some (l.get ⟨i, hi⟩) := by
  intro l
  induction l with
  | nil => intro i hi; exact absurd hi (by simp)
  | cons a l ih =>
    intro i hi hp hmin
    cases i with
    | zero => exact List.find?_cons_of_pos l hp
    | succ i' =>
      have ha : p a = false := hmin 0 (by simp) (Nat.succ_pos i')
      rw [List.find?_cons_of_neg l (by simp [ha])]
      exact ih i' (Nat.lt_of_succ_lt_succ hi) hp
        (fun j hj hji =>
          hmin (j + 1) (Nat.succ_lt_succ hj) (Nat.succ_lt_succ hji))

/-! ## Claim C1 -/

/-- Claim C1, counterexample: with one valid symbol whose profile is
missing, the Technology bucket's total market cap is `0`, and its
`averageChange` is left unset (`none`) — it does not equal the claimed
neutral default `0`. -/
theorem sector_weighted_average_cex :
    ((refreshHeatmapData fetchC1 0).sectors.map
        (fun b => (b.totalMarketCap, b.averageChange))) = [((0 : ℚ), (none : Option ℚ))]
    ∧ (none : Option ℚ) ≠ some 0 := by
  refine ⟨by decide, by simp⟩

/-- Claim C1 (amended): in every produced snapshot, each sector bucket's
`totalMarketCap` and `weightedChange` are the member sums, and when the
total market cap is strictly positive the finalized `averageChange` equals
the sum of `changePercent * marketCap` over the members divided by the sum
of `marketCap`; when the total market cap is not strictly positive the
bucket's `averageChange` is left unset (`none`), not `0`. -/
theorem sector_weighted_average (fetch : String → Option Quote × Option Profile)
    (now : Int) (b : SectorBucket)
    (hb : b ∈ (refreshHeatmapData fetch now).sectors) :
    b.totalMarketCap = (b.stocks.map (fun s => s.marketCap)).sum
    ∧ b.weightedChange = (b.stocks.map (fun s => s.changePercent * s.marketCap)).sum
    ∧ (0 < b.totalMarketCap →
        b.averageChange
          = some ((b.stocks.map (fun s => s.changePercent * s.marketCap)).sum
              / (b.stocks.map (fun s => s.marketCap)).sum))
    ∧ (b.totalMarketCap ≤ 0 → b.averageChange = none) := by
  simp only [refreshHeatmapData, aggregate] at hb
  obtain ⟨b0, hb0, rfl⟩ := List.mem_map.mp hb
  obtain ⟨h1, h2, h3⟩ := foldl_bucketSums _ [] (by simp) b0 hb0
  have e1 : (finalizeBucket b0).totalMarketCap = b0.totalMarketCap := by
    unfold finalizeBucket; split <;> rfl
  have e2 : (finalizeBucket b0).weightedChange = b0.weightedChange := by
    unfold finalizeBucket; split <;> rfl
  have e3 : (finalizeBucket b0).stocks = b0.stocks := finalizeBucket_stocks b0
  refine ⟨by rw [e1, e3, h1], by rw [e2, e3, h2], ?_, ?_⟩
  · intro hpos
    rw [e1] at hpos
    unfold finalizeBucket
    rw [if_pos hpos]
    simp [h1, h2]
  · intro hle
    rw [e1] at hle
    have hneg : ¬ 0 < b0.totalMarketCap := not_lt.mpr hle
    unfold finalizeBucket
    rw [if_neg hneg]
    exact h3

unseal Rat.mul Rat.inv Rat.add in
/-- Claim C1, witness: a concrete run with one valid symbol of market cap
1000 and percent change 2 yields the Technology bucket with
`averageChange = some 2`. -/
theorem sector_weighted_average_witness :
    bC1W.totalMarketCap = (bC1W.stocks.map (fun s => s.marketCap)).sum
    ∧ bC1W.weightedChange = (bC1W.stocks.map (fun s => s.changePercent * s.marketCap)).sum
    ∧ (0 < bC1W.totalMarketCap →
        bC1W.averageChange
          = some ((bC1W.stocks.map (fun s => s.changePercent * s.marketCap)).sum
              / (bC1W.stocks.map (fun s => s.marketCap)).sum))
    ∧ (bC1W.totalMarketCap ≤ 0 → bC1W.averageChange = none) :=
  sector_weighted_average fetchC1W 0 bC1W
    (by rw [show (refreshHeatmapData fetchC1W 0).sectors = [bC1W] by decide]
        exact List.mem_singleton.mpr rfl)

/-! ## Claim C2 -/

/-- Claim C2 (code bug): when the first upstream attempt is rate limited
(and a retry would succeed), the originating `fetchWithRetry` promise never
settles: the retry task is pushed onto the queue whose `while` loop is
itself suspended inside `await fn()` on the current task, so the retry is
never dequeued and the chain never resolves — at every later event-loop
turn the result is still unsettled, contradicting the claimed resolution
to a present result after backoff. -/
theorem rateLimit_retry_never_resolves (upstream : Nat → UpstreamResult ℚ)
    (d : ℚ) (h0 : upstream 0 = .rateLimited) (h1 : upstream 1 = .success d)
    (n : Nat) :
    ((qstep upstream)^[n] (initQueueState ℚ)).result = none := by
  cases n with
  | zero => rfl
  | succ m =>
    have hstep : qstep upstream (initQueueState ℚ)
        = ⟨[1], [0], [backoffTime 0], none⟩ := by
      rw [show initQueueState ℚ = ⟨[0], [], [], none⟩ from rfl,
        qstep_dispatch upstream 0 [] [], h0]
      rfl
    rw [Function.iterate_succ_apply, hstep,
      Function.iterate_fixed
        (show qstep upstream ⟨[1], [0], [backoffTime 0], none⟩
            = ⟨[1], [0], [backoffTime 0], none⟩ from rfl) m]

/-- Claim C2, witness: the concrete upstream that is rate limited on the
first attempt and would succeed on the second leaves the promise
unsettled after five event-loop turns. -/
theorem rateLimit_retry_never_resolves_witness :
    ((qstep u2)^[5] (initQueueState ℚ)).result = none :=
  rateLimit_retry_never_resolves u2 1 rfl rfl 5

/-! ## Claim C3 -/

/-- Claim C3, counterexample: the in-memory cache is empty, a disk entry
exists but is 45 minutes old (older than 2×TTL, so `loadPersistentCache`
discards it), and the blocking refresh fails — the handler answers 503
instead of returning the stale disk entry as last resort. -/
theorem stale_fallback_cex :
    handleHeatmap none (some ⟨0, snap0⟩) 2700000 none
      = ⟨.serviceUnavailable, none, .blocking⟩
    ∧ CACHE_MAX_AGE * 2 ≤ 2700000 - (0 : Int) := by
  exact ⟨rfl, by decide⟩

/-- Claim C3 (amended): on the no-usable-cache path with a failed blocking
refresh, the stale disk entry is returned only when `loadPersistentCache`
accepted it, i.e. its wrapper timestamp is younger than 2×TTL; when the
disk entry is absent or its wrapper timestamp is at least 2×TTL old, the
handler answers 503 even if a disk entry exists. -/
theorem stale_fallback_requires_recent_disk (mem : Option MemEntry)
    (disk : Option DiskEntry) (now : Int) (c : HeatmapSnapshot)
    (hmem : cacheGet mem now = none) :
    (loadPersistentCache now disk = none →
      handleHeatmap mem disk now none = ⟨.serviceUnavailable, mem, .blocking⟩)
    ∧ (loadPersistentCache now disk = some c →
        CACHE_MAX_AGE * 2 ≤ now - c.lastUpdated →
        handleHeatmap mem disk now none = ⟨.ok c, mem, .blocking⟩) := by
  constructor
  · intro hload
    simp only [handleHeatmap, hmem, hload]
  · intro hload hage
    have hA : ¬ now - c.lastUpdated < CACHE_MAX_AGE := by
      unfold CACHE_MAX_AGE at hage ⊢; omega
    have hB : ¬ now - c.lastUpdated < CACHE_MAX_AGE * 2 := not_lt.mpr hage
    simp only [handleHeatmap, hmem, hload, if_neg hA, if_neg hB]

/-- Claim C3, witness: with an empty memory tier and a failed refresh, a
45-minute-old disk entry yields 503, while a disk entry whose wrapper
timestamp is recent but whose snapshot `lastUpdated` is ancient is
returned stale. -/
theorem stale_fallback_requires_recent_disk_witness :
    handleHeatmap none (some ⟨0, snap0⟩) 2700000 none
      = ⟨.serviceUnavailable, none, .blocking⟩
    ∧ handleHeatmap none (some ⟨2000000, snap0⟩) 2700000 none
      = ⟨.ok snap0, none, .blocking⟩ :=
  ⟨(stale_fallback_requires_recent_disk none (some ⟨0, snap0⟩) 2700000 snap0
      rfl).1 (by decide),
   (stale_fallback_requires_recent_disk none (some ⟨2000000, snap0⟩) 2700000 snap0
      rfl).2 (by decide) (by decide)⟩

/-! ## Claim C4 -/

/-- Claim C4: invoking the refresh while one is in flight is an immediate
no-op that changes nothing and starts no pass; from an idle state, two
invocations with no completion in between (two concurrent no-usable-cache
requests) start exactly one refresh pass — the first starts it, the second
is the no-op. -/
theorem single_flight_guard (s1 s2 : FlightState)
    (h1 : s1.isRefreshing = true) (h2 : s2.isRefreshing = false) :
    refreshInvoke s1 = (s1, false)
    ∧ (refreshInvoke s2).2 = true
    ∧ (refreshInvoke (refreshInvoke s2).1).2 = false
    ∧ (refreshInvoke (refreshInvoke s2).1).1.passesStarted
        = s2.passesStarted + 1 := by
  unfold refreshInvoke
  rw [h1, h2]
  simp

/-- Claim C4, witness: concrete guard states. -/
theorem single_flight_guard_witness :
    refreshInvoke ⟨true, 3⟩ = (⟨true, 3⟩, false)
    ∧ (refreshInvoke ⟨false, 0⟩).2 = true
    ∧ (refreshInvoke (refreshInvoke ⟨false, 0⟩).1).2 = false
    ∧ (refreshInvoke (refreshInvoke ⟨false, 0⟩).1).1.passesStarted
        = (FlightState.mk false 0).passesStarted + 1 :=
  single_flight_guard ⟨true, 3⟩ ⟨false, 0⟩ rfl rfl

/-! ## Claim C5 -/

/-- Claim C5: every record of every sector bucket of a produced snapshot
has strictly positive price, and an invalid symbol — quote absent, or
quote price not strictly positive — appears in no bucket (and hence, by
`sector_weighted_average`, contributes to no bucket's totals). -/
theorem stock_records_valid (fetch : String → Option Quote × Option Profile)
    (now : Int) (t : String)
    (hinv : (fetch t).1 = none ∨ ∃ q, (fetch t).1 = some q ∧ q.c ≤ 0) :
    (∀ b ∈ (refreshHeatmapData fetch now).sectors, ∀ r ∈ b.stocks, 0 < r.price)
    ∧ ∀ b ∈ (refreshHeatmapData fetch now).sectors, ∀ r ∈ b.stocks,
        r.symbol ≠ t := by
  have key : ∀ b ∈ (refreshHeatmapData fetch now).sectors, ∀ r ∈ b.stocks,
      ∃ t', processTicker fetch t' = some r := by
    intro b hb r hr
    have hmem : r ∈ allStocks (refreshHeatmapData fetch now) :=
      List.mem_flatMap.mpr ⟨b, hb, hr⟩
    obtain ⟨t', -, h⟩ := (mem_allStocks_iff fetch now r).mp hmem
    exact ⟨t', h⟩
  refine ⟨fun b hb r hr => ?_, fun b hb r hr hsym => ?_⟩
  · obtain ⟨t', h⟩ := key b hb r hr
    obtain ⟨-, q, -, hc, hpr⟩ := processTicker_symbol_price h
    rw [hpr]
    exact hc
  · obtain ⟨t', h⟩ := key b hb r hr
    have hst : r.symbol = t' := (processTicker_symbol_price h).1
    rw [hsym] at hst
    rw [← hst] at h
    rw [processTicker_invalid hinv] at h
    cases h

/-- Claim C5, witness: with AAPL valid and MSFT carrying a non-positive
quote price, every emitted record has positive price and MSFT is absent
from every bucket. -/
theorem stock_records_valid_witness :
    (∀ b ∈ (refreshHeatmapData fetchC5 0).sectors, ∀ r ∈ b.stocks, 0 < r.price)
    ∧ ∀ b ∈ (refreshHeatmapData fetchC5 0).sectors, ∀ r ∈ b.stocks,
        r.symbol ≠ "MSFT" :=
  stock_records_valid fetchC5 0 "MSFT"
    (Or.inr ⟨mkQuote (-1) 1, rfl, by decide⟩)

/-! ## Claim C6 -/

/-- Claim C6: the sector assigned to a symbol is the name of the first
entry of `STOCKS_BY_SECTOR`, in table order, whose list contains the
symbol; a symbol contained in no entry's list is assigned `"Other"`. -/
theorem sector_first_match (t : String) :
    (∀ (i : Nat) (hi : i < STOCKS_BY_SECTOR.length),
        t ∈ (STOCKS_BY_SECTOR.get ⟨i, hi⟩).2 →
        (∀ (j : Nat) (hj : j < STOCKS_BY_SECTOR.length), j < i →
          t ∉ (STOCKS_BY_SECTOR.get ⟨j, hj⟩).2) →
        findSector t = (STOCKS_BY_SECTOR.get ⟨i, hi⟩).1)
    ∧ ((∀ e ∈ STOCKS_BY_SECTOR, t ∉ e.2) → findSector t = "Other") := by
  constructor
  · intro i hi hmem hfirst
    unfold findSector
    rw [find?_eq_get_of_first (fun e => e.2.contains t) STOCKS_BY_SECTOR i hi
      (by simpa using List.elem_iff.mpr hmem)
      (fun j hj hji => by
        simpa using fun hc => hfirst j hj hji (List.elem_iff.mp hc))]
  · intro h
    unfold findSector
    rw [List.find?_eq_none.mpr
      (fun e he => by simpa using fun hc => h e he (List.elem_iff.mp hc))]

/-- Claim C6, witness: GOOGL is listed under both Technology (first) and
Communication, and resolves to Technology; a symbol in no list resolves
to Other. -/
theorem sector_first_match_witness :
    findSector "GOOGL" = (STOCKS_BY_SECTOR.get ⟨0, by decide⟩).1
    ∧ findSector "ZZZZ" = "Other" :=
  ⟨(sector_first_match "GOOGL").1 0 (by decide) (by decide)
      (fun j hj hji => absurd hji (Nat.not_lt_zero j)),
   (sector_first_match "ZZZZ").2 (by decide)⟩

/-! ## Claim C7 -/

/-- Claim C7: a first-attempt failure that is not a 429 makes the task
resolve immediately to an absent result with no retry queued and no
backoff slept; and a failed symbol does not abort the refresh cycle —
every other valid ticker's record still reaches a sector bucket of the
produced snapshot. -/
theorem non429_not_retried (upstream : Nat → UpstreamResult ℚ) (n : Nat)
    (fetch : String → Option Quote × Option Profile) (now : Int)
    (t : String) (r : StockRecord)
    (h0 : upstream 0 = .otherError) (hn : 1 ≤ n)
    (hr : processTicker fetch t = some r) (ht : t ∈ getAllTickers) :
    (qstep upstream)^[n] (initQueueState ℚ) = ⟨[], [], [], some none⟩
    ∧ ∃ b ∈ (refreshHeatmapData fetch now).sectors, r ∈ b.stocks := by
  constructor
  · cases n with
    | zero => exact absurd hn (by simp)
    | succ m =>
      have hstep : qstep upstream (initQueueState ℚ)
          = ⟨[], [], [], some none⟩ := by
        rw [show initQueueState ℚ = ⟨[0], [], [], none⟩ from rfl,
          qstep_dispatch upstream 0 [] [], h0]
      rw [Function.iterate_succ_apply, hstep,
        Function.iterate_fixed
          (show qstep upstream ⟨[], [], [], some none⟩
              = ⟨[], [], [], some none⟩ from rfl) m]
  · have hmem : r ∈ allStocks (refreshHeatmapData fetch now) :=
      (mem_allStocks_iff fetch now r).mpr ⟨t, ht, hr⟩
    exact List.mem_flatMap.mp hmem

/-- Claim C7, witness: an always-failing (non-429) upstream resolves to an
absent result in one turn with nothing queued; with MSFT failed and AAPL
valid, AAPL's record is in a bucket of the snapshot. -/
theorem non429_not_retried_witness :
    (qstep u7)^[1] (initQueueState ℚ) = ⟨[], [], [], some none⟩
    ∧ ∃ b ∈ (refreshHeatmapData fetchC7 0).sectors, recC7 ∈ b.stocks :=
  non429_not_retried u7 1 fetchC7 0 "AAPL" recC7 rfl (by decide)
    (by decide) (by decide)

/-! ## Claim C8 -/

/-- Claim C8: a memory-tier hit returns the stored snapshot (including its
`lastUpdated`), leaves the cache untouched and triggers no refresh, so two
reads within the entry's TTL window with no refresh in between return the
identical snapshot. -/
theorem cache_read_idempotent (mem : Option MemEntry) (disk : Option DiskEntry)
    (t1 t2 : Int) (rr1 rr2 : Option HeatmapSnapshot) (s : HeatmapSnapshot)
    (h1 : cacheGet mem t1 = some s) (h2 : (cacheGet mem t2).isSome = true) :
    handleHeatmap mem disk t1 rr1 = ⟨.ok s, mem, .noRefresh⟩
    ∧ (handleHeatmap (handleHeatmap mem disk t1 rr1).newMem disk t2 rr2).response
        = .ok s := by
  have h2' : cacheGet mem t2 = some s := by
    cases mem with
    | none => simp [cacheGet] at h1
    | some e =>
      simp only [cacheGet] at h1 h2 ⊢
      by_cases ht1 : t1 < e.expiresAt
      · rw [if_pos ht1] at h1
        by_cases ht2 : t2 < e.expiresAt
        · rw [if_pos ht2]
          exact h1
        · rw [if_neg ht2] at h2
          simp at h2
      · rw [if_neg ht1] at h1
        simp at h1
  have hfirst : handleHeatmap mem disk t1 rr1 = ⟨.ok s, mem, .noRefresh⟩ := by
    simp only [handleHeatmap, h1]
  refine ⟨hfirst, ?_⟩
  rw [hfirst]
  simp only [handleHeatmap, h2']

/-- Claim C8, witness: two reads at instants 10 and 20 of an entry expiring
at 1000 return the identical snapshot. -/
theorem cache_read_idempotent_witness :
    handleHeatmap (some ⟨snap0, 1000⟩) none 10 none
      = ⟨.ok snap0, some ⟨snap0, 1000⟩, .noRefresh⟩
    ∧ (handleHeatmap (handleHeatmap (some ⟨snap0, 1000⟩) none 10 none).newMem
        none 20 none).response = .ok snap0 :=
  cache_read_idempotent (some ⟨snap0, 1000⟩) none 10 20 none none snap0 rfl rfl

/-! ## Claim C9 -/

/-- Claim C9: the fixed table lists GOOGL under (at least) two sectors, yet
in every produced snapshot every symbol appears at most once across all
sector buckets combined: the ticker list is deduplicated before the
refresh loop and each ticker emits at most one record. -/
theorem snapshot_symbols_unique :
    2 ≤ (STOCKS_BY_SECTOR.filter (fun e => e.2.contains "GOOGL")).length
    ∧ ∀ (fetch : String → Option Quote × Option Profile) (now : Int),
        ((allStocks (refreshHeatmapData fetch now)).map (fun r => r.symbol)).Nodup := by
  refine ⟨by decide, fun fetch now => ?_⟩
  rw [((allStocks_refresh_perm fetch now).map (fun r => r.symbol)).nodup_iff]
  exact List.Sublist.nodup (symbols_sublist fetch getAllTickers) getAllTickers_nodup

/-! ## Claim C10 -/

/-- Claim C10: a disk entry fresher than TTL loaded on a memory miss is
stored with a full TTL counted from the load instant; any later request
before that in-memory expiry gets a memory hit with no refresh triggered,
regardless of how old the snapshot's own `lastUpdated` is by then. -/
theorem disk_fresh_ttl_from_load (disk : Option DiskEntry) (c : HeatmapSnapshot)
    (t0 tq : Int) (rr0 rr : Option HeatmapSnapshot)
    (h0 : loadPersistentCache t0 disk = some c)
    (hfresh : t0 - c.lastUpdated < CACHE_MAX_AGE)
    (hq : tq < t0 + CACHE_MAX_AGE) :
    handleHeatmap none disk t0 rr0
      = ⟨.ok c, some ⟨c, t0 + CACHE_MAX_AGE⟩, .noRefresh⟩
    ∧ handleHeatmap (some ⟨c, t0 + CACHE_MAX_AGE⟩) disk tq rr
      = ⟨.ok c, some ⟨c, t0 + CACHE_MAX_AGE⟩, .noRefresh⟩ := by
  constructor
  · simp only [handleHeatmap, cacheGet, h0, if_pos hfresh, cacheSet]
  · have hget : cacheGet (some ⟨c, t0 + CACHE_MAX_AGE⟩) tq = some c := by
      simp only [cacheGet]
      rw [if_pos hq]
    simp only [handleHeatmap, hget]

/-- Claim C10, witness: a 13.3-minute-old disk snapshot loaded at
`t0 = 800000` ms serves a memory hit at `tq = 1600000` ms with no refresh,
although the snapshot's true age at `tq` (26.7 minutes) exceeds the TTL. -/
theorem disk_fresh_ttl_from_load_witness :
    (handleHeatmap none (some ⟨0, snap0⟩) 800000 none
      = ⟨.ok snap0, some ⟨snap0, 800000 + CACHE_MAX_AGE⟩, .noRefresh⟩
    ∧ handleHeatmap (some ⟨snap0, 800000 + CACHE_MAX_AGE⟩) (some ⟨0, snap0⟩)
        1600000 none
      = ⟨.ok snap0, some ⟨snap0, 800000 + CACHE_MAX_AGE⟩, .noRefresh⟩)
    ∧ CACHE_MAX_AGE ≤ 1600000 - snap0.lastUpdated :=
  ⟨disk_fresh_ttl_from_load (some ⟨0, snap0⟩) snap0 800000 1600000 none none
      (by decide) (by decide) (by decide),
   by decide⟩

end FinanceMap
